import Mathlib

/-!
Verification of the document-retrieval-with-fallback backend (src/main.py).

The embedding models the projects-listing path and the contact-submission
path of the FastAPI application. Stored records are schema-less mappings;
we embed them as association lists from string keys to string values, with
Python truthiness (the empty string and a missing key are falsy). The
document-store gateway is modelled by an explicit outcome value: either it
raises, or it returns an ordered sequence of documents, each of which is a
proper mapping or a non-mapping value on which attribute access raises.
-/

namespace Backend

/-- A stored record: a string-keyed mapping, embedded as an association
list. Lookup of a key returns the first binding, mirroring Python dict
access via d.get(k), which yields None when the key is missing. -/
abbrev Record := List (String × String)

/-- Python d.get(k): the value bound to k, or none when absent. -/
def pyGet (d : Record) (k : String) : Option String :=
  d.lookup k

/-- Python truthiness of an optional string value: None is falsy and the
empty string is falsy; every other string is truthy. -/
def pyTruthy : Option String → Bool
  | none => false
  | some s => !(s == "")

/-- Python a or b on optional string values: a when a is truthy, else b. -/
def pyOr (a b : Option String) : Option String :=
  if pyTruthy a then a else b

/-- Python a or lit where lit is a non-optional string literal: the value
inside a when a is truthy, else the literal. -/
def pyOrStr (a : Option String) (lit : String) : String :=
  match a with
  | none => lit
  | some s => if s == "" then lit else s

/-- The Project output shape of main.py: title required, location and
image optional (a none marks a truly absent field in the response). -/
structure Project where
  title : String
  location : Option String := none
  image : Option String := none
deriving Repr, DecidableEq

/-- The Record Mapper, embedded from the loop body of list_projects:
title is d.get "title" or d.get "name" or "Untitled", location is
d.get "location", image is d.get "image" or d.get "image_url". -/
def mapRecord (d : Record) : Project :=
  { title := pyOrStr (pyOr (pyGet d "title") (pyGet d "name")) "Untitled"
  , location := pyGet d "location"
  , image := pyOr (pyGet d "image") (pyGet d "image_url") }

/-- The hard-coded DEFAULT_PROJECTS constant of main.py, after the
elementwise conversion Project(**p) that list_projects performs. -/
def DEFAULT_PROJECTS : List Project :=
  [ { title := "Courtyard Residence"
    , location := some "Lisbon, Portugal"
    , image := some "https://images.unsplash.com/photo-1501045661006-fcebe0257c3f?q=80&w=1600&auto=format&fit=crop" }
  , { title := "Gallery Pavilion"
    , location := some "Copenhagen, Denmark"
    , image := some "https://images.unsplash.com/photo-1529429612777-95c0d0f2ad32?q=80&w=1600&auto=format&fit=crop" }
  , { title := "Cliff House"
    , location := some "Big Sur, USA"
    , image := some "https://images.unsplash.com/photo-1519710164239-da123dc03ef4?q=80&w=1600&auto=format&fit=crop" }
  , { title := "Cultural Center"
    , location := some "Kyoto, Japan"
    , image := some "https://images.unsplash.com/photo-1518770660439-4636190af475?q=80&w=1600&auto=format&fit=crop" } ]

/-- The Fallback Supplier: each call of the listing path evaluates the
comprehension over DEFAULT_PROJECTS afresh; it takes no input. -/
def fallback : Unit → List Project :=
  fun _ => DEFAULT_PROJECTS

/-- One element of the sequence returned by get_documents: either a
proper mapping, or a non-mapping value on which d.get raises. -/
inductive Doc
  | dict (fields : Record)
  | nonMapping
deriving Repr, DecidableEq

/-- Mapping one document: a proper mapping goes through the Record
Mapper; attribute access on a non-mapping value raises. -/
def mapDoc : Doc → Except Unit Project
  | .dict d => .ok (mapRecord d)
  | .nonMapping => .error ()

/-- The mapping loop of list_projects: documents are mapped in order and
an exception at any element aborts the loop, discarding the items built
so far. -/
def mapDocs : List Doc → Except Unit (List Project)
  | [] => .ok []
  | d :: rest =>
    match mapDoc d with
    | .error e => .error e
    | .ok p =>
      match mapDocs rest with
      | .error e => .error e
      | .ok ps => .ok (p :: ps)

/-- The outcome of the gateway call get_documents "projects": the call
either raises or returns an ordered sequence of documents. -/
inductive FetchOutcome
  | failure
  | success (docs : List Doc)

/-- The projects endpoint list_projects of main.py, as a function of the
gateway outcome. A raising gateway call and any exception inside the try
block are caught by the blanket except, which returns the defaults; an
empty result also returns the defaults; otherwise the mapped items are
returned in order. -/
def list_projects : FetchOutcome → List Project
  | .failure => fallback ()
  | .success docs =>
    if docs.isEmpty then fallback ()
    else
      match mapDocs docs with
      | .ok items => items
      | .error _ => fallback ()

/-- The contact request body of main.py: name, email and message, all
strings before validation. -/
structure ContactMessageIn where
  name : String
  email : String
  message : String

/-- Modelled from the library boundary: the syntactic check of pydantic
EmailStr on the email field (the library is not part of src/). A valid
address has exactly one at sign with a non-empty part on each side, and
the domain part holds a period. -/
def validEmail (s : String) : Bool :=
  match s.toList.span (fun c => !(c == '@')) with
  | (lp, '@' :: dom) =>
    !lp.isEmpty && !dom.isEmpty && !dom.contains '@' && dom.contains '.'
  | _ => false

/-- The schema validation FastAPI runs before invoking submit_contact:
name between 2 and 100 characters, email syntactically valid, message
between 10 and 5000 characters. -/
def validContact (m : ContactMessageIn) : Bool :=
  decide (2 ≤ m.name.length) && decide (m.name.length ≤ 100) &&
  validEmail m.email &&
  decide (10 ≤ m.message.length) && decide (m.message.length ≤ 5000)

/-- The outcome of the gateway call create_document "contact_messages":
the call either returns an id or raises with a message. -/
inductive CreateOutcome
  | ok (id : String)
  | raises (msg : String)

/-- The observable response of the contact endpoint. -/
inductive ContactResponse
  | validationError
  | success (id : String)
  | serverError (detail : String)
deriving Repr, DecidableEq

/-- The contact endpoint of main.py, as a function of the gateway
outcome: schema validation runs first and a failure yields a 422 with no
gateway call; otherwise create_document is called exactly once, its id is
returned on success, and a raised exception is re-raised as a 500 whose
detail is the string of the exception. The first component counts the
create calls made. -/
def submit_contact (g : CreateOutcome) (m : ContactMessageIn) :
    Nat × ContactResponse :=
  if validContact m then
    match g with
    | .ok id => (1, .success id)
    | .raises msg => (1, .serverError msg)
  else
    (0, .validationError)

/-- First truthy value in a list of looked-up optional fields, for the
spec-side reading "first non-empty value among fields ...". -/
def firstNonEmpty : List (Option String) → Option String
  | [] => none
  | none :: rest => firstNonEmpty rest
  | some s :: rest => if s == "" then firstNonEmpty rest else some s

/-- Spec-side title: first non-empty value among the fields title then
name, else the literal Untitled. -/
def specTitle (d : Record) : String :=
  (firstNonEmpty [pyGet d "title", pyGet d "name"]).getD "Untitled"

/-- Spec-side image as the claim words it: first non-empty value among
the fields image then image_url, else absent. -/
def specImage (d : Record) : Option String :=
  firstNonEmpty [pyGet d "image", pyGet d "image_url"]

/-- Amended image: the stored image field when non-empty, otherwise the
stored image_url field verbatim when the key is present (possibly the
empty string), otherwise absent. -/
def specImageAmended (d : Record) : Option String :=
  match pyGet d "image" with
  | some s => if s == "" then pyGet d "image_url" else some s
  | none => pyGet d "image_url"

/-! Helper lemmas about the mapping loop. -/

theorem mapDocs_map_dict (rs : List Record) :
    mapDocs (rs.map Doc.dict) = .ok (rs.map mapRecord) := by
  induction rs with
  | nil => rfl
  | cons r t ih => simp [mapDocs, mapDoc, ih]

theorem mapDocs_ok_length {docs : List Doc} {items : List Project}
    (h : mapDocs docs = .ok items) : items.length = docs.length := by
  induction docs generalizing items with
  | nil =>
    simp [mapDocs] at h
    subst h
    rfl
  | cons d rest ih =>
    unfold mapDocs at h
    cases hd : mapDoc d with
    | error e => rw [hd] at h; simp at h
    | ok p =>
      rw [hd] at h
      cases hr : mapDocs rest with
      | error e => rw [hr] at h; simp at h
      | ok ps =>
        rw [hr] at h
        simp at h
        subst h
        simp [ih hr]

theorem mapDocs_error_of_mem {docs : List Doc}
    (h : Doc.nonMapping ∈ docs) : mapDocs docs = .error () := by
  induction docs with
  | nil => simp at h
  | cons d rest ih =>
    rcases List.mem_cons.mp h with h | h
    · subst h
      simp [mapDocs, mapDoc]
    · cases hd : mapDoc d <;> simp [mapDocs, hd, ih h]

theorem pyOrStr_ne_empty (a : Option String) (lit : String)
    (hl : lit ≠ "") : pyOrStr a lit ≠ "" := by
  cases a with
  | none => simpa [pyOrStr] using hl
  | some s =>
    by_cases hs : s = "" <;> simp [pyOrStr, hs, hl]

theorem title_chain_eq_firstNonEmpty (a b : Option String) :
    pyOrStr (pyOr a b) "Untitled" = (firstNonEmpty [a, b]).getD "Untitled" := by
  cases a with
  | none =>
    cases b with
    | none => rfl
    | some n => by_cases hn : n = "" <;> simp [pyOr, pyTruthy, pyOrStr, firstNonEmpty, hn]
  | some t =>
    by_cases ht : t = ""
    · cases b with
      | none => simp [pyOr, pyTruthy, pyOrStr, firstNonEmpty, ht]
      | some n => by_cases hn : n = "" <;> simp [pyOr, pyTruthy, pyOrStr, firstNonEmpty, ht, hn]
    · simp [pyOr, pyTruthy, pyOrStr, firstNonEmpty, ht]

/-! Theorems for the claims. -/

/-- C1: if the gateway call get_documents "projects" raises, list_projects
returns exactly the four-element Fallback set, and the caller observes no
failure (the model of the endpoint is total). -/
theorem listProjects_failure_fallback :
    list_projects .failure = fallback () ∧ (fallback ()).length = 4 :=
  ⟨rfl, rfl⟩

/-- C2: if the gateway call succeeds with an empty sequence, list_projects
returns exactly the four-element Fallback set. -/
theorem listProjects_empty_fallback :
    list_projects (.success []) = fallback () ∧ (fallback ()).length = 4 :=
  ⟨rfl, rfl⟩

/-- C3: for every non-empty sequence of proper records returned by the
gateway, list_projects returns the elementwise image under the Record
Mapper, in the original order. -/
theorem listProjects_order_preserving (rs : List Record) (h : rs ≠ []) :
    list_projects (.success (rs.map Doc.dict)) = rs.map mapRecord := by
  have hne : (rs.map Doc.dict).isEmpty = false := by
    cases rs with
    | nil => exact absurd rfl h
    | cons r t => rfl
  simp [list_projects, hne, mapDocs_map_dict]

/-- C3 witness: for the two records [A, B] with A = (title Alpha) and
B = (name Beta), the result is [map A, map B]. -/
theorem listProjects_order_preserving_witness :
    list_projects (.success [Doc.dict [("title", "Alpha")], Doc.dict [("name", "Beta")]]) =
      [mapRecord [("title", "Alpha")], mapRecord [("name", "Beta")]] :=
  listProjects_order_preserving [[("title", "Alpha")], [("name", "Beta")]] (by decide)

/-- C4: for every mapping, the mapped title is the first non-empty value
among the fields title then name, else the literal Untitled, and it is
never empty. -/
theorem mapRecord_title_spec (d : Record) :
    (mapRecord d).title = specTitle d ∧ (mapRecord d).title ≠ "" := by
  constructor
  · exact title_chain_eq_firstNonEmpty (pyGet d "title") (pyGet d "name")
  · exact pyOrStr_ne_empty _ _ (by decide)

/-- C5 counterexample: on the record with image_url bound to the empty
string, the code maps image to the present empty string, while the claim
(first non-empty value among image then image_url, else absent) demands
an absent marker. -/
theorem mapRecord_image_spec_cex :
    (mapRecord [("image_url", "")]).image ≠ specImage [("image_url", "")] ∧
    (mapRecord [("image_url", "")]).image = some "" ∧
    specImage [("image_url", "")] = none := by
  refine ⟨?_, rfl, rfl⟩
  decide

/-- C5 amended: location is the stored location field when present and a
true absent marker otherwise; image is the stored image field when
non-empty, otherwise the stored image_url field verbatim when the key is
present (possibly the empty string), otherwise absent. -/
theorem mapRecord_location_image_amended (d : Record) :
    (mapRecord d).location = pyGet d "location" ∧
    (mapRecord d).image = specImageAmended d := by
  refine ⟨rfl, ?_⟩
  cases hi : pyGet d "image" with
  | none => simp [mapRecord, specImageAmended, pyOr, pyTruthy, hi]
  | some s =>
    by_cases hs : s = "" <;>
      simp [mapRecord, specImageAmended, pyOr, pyTruthy, hi, hs]

/-- C6: the Fallback Supplier is pure and deterministic; every call
returns the same four-element sequence, whose titles are, in order,
Courtyard Residence, Gallery Pavilion, Cliff House, Cultural Center. -/
theorem fallback_deterministic :
    (∀ u v : Unit, fallback u = fallback v) ∧
    (fallback ()).length = 4 ∧
    (fallback ()).map Project.title =
      ["Courtyard Residence", "Gallery Pavilion", "Cliff House", "Cultural Center"] :=
  ⟨fun _ _ => rfl, rfl, by decide⟩

/-- C7: a contact message whose name is shorter than 2 characters, or
whose email is syntactically invalid, is rejected with a validation error
and zero gateway create calls; a message passing validation triggers
exactly one create call and, when the call returns an id, the response is
success with that id. -/
theorem contact_validation (g : CreateOutcome) (m : ContactMessageIn) :
    (m.name.length < 2 → submit_contact g m = (0, .validationError)) ∧
    (validEmail m.email = false → submit_contact g m = (0, .validationError)) ∧
    (∀ id, validContact m = true → g = .ok id →
      submit_contact g m = (1, .success id)) := by
  refine ⟨?_, ?_, ?_⟩
  · intro h
    have h2 : decide (2 ≤ m.name.length) = false := decide_eq_false (by omega)
    simp [submit_contact, validContact, h2]
  · intro h
    simp [submit_contact, validContact, h]
  · intro id hv hg
    subst hg
    simp [submit_contact, hv]

/-- C7 witness: a one-character name is rejected with no create call, an
invalid email is rejected with no create call, and a valid message yields
one create call and the created id. -/
theorem contact_validation_witness :
    submit_contact (.ok "42") ⟨"A", "ada@example.com", "Hello, I need a website."⟩ =
      (0, .validationError) ∧
    submit_contact (.ok "42") ⟨"Ada", "not-an-email", "Hello, I need a website."⟩ =
      (0, .validationError) ∧
    submit_contact (.ok "42") ⟨"Ada", "ada@example.com", "Hello, I need a website."⟩ =
      (1, .success "42") :=
  ⟨(contact_validation _ _).1 (by decide),
   (contact_validation _ _).2.1 (by decide),
   (contact_validation _ _).2.2 "42" (by decide) rfl⟩

/-- C8: when the gateway create call raises during a validated contact
submission, the endpoint makes exactly one create call and surfaces a
server error whose detail is the raised message itself, so the response
contains the underlying failure description. -/
theorem contact_failure_surfaced (m : ContactMessageIn) (msg : String)
    (hv : validContact m = true) :
    submit_contact (.raises msg) m = (1, .serverError msg) := by
  simp [submit_contact, hv]

/-- C8 witness: a create call raising with message disk full yields a
server error carrying exactly that text. -/
theorem contact_failure_surfaced_witness :
    submit_contact (.raises "disk full")
        ⟨"Ada", "ada@example.com", "Hello, I need a website."⟩ =
      (1, .serverError "disk full") :=
  contact_failure_surfaced _ "disk full" (by decide)

/-- C9 counterexample: on the sequence [dict (title Good), nonMapping]
the claim demands [map (title Good), untitled default project], but the
code returns the four-element Fallback set instead. -/
theorem nonmapping_record_cex :
    list_projects (.success [Doc.dict [("title", "Good")], Doc.nonMapping]) =
      DEFAULT_PROJECTS ∧
    list_projects (.success [Doc.dict [("title", "Good")], Doc.nonMapping]) ≠
      [mapRecord [("title", "Good")],
       { title := "Untitled", location := none, image := none }] := by
  refine ⟨rfl, ?_⟩
  decide

/-- C9 amended: a non-mapping record does not crash the orchestrator:
the exception it raises inside the mapping loop is caught by the blanket
except, and the whole result is the four-element Fallback set; the
mappings of the other records are discarded rather than returned. -/
theorem nonmapping_record_full_fallback (docs : List Doc)
    (h : Doc.nonMapping ∈ docs) :
    list_projects (.success docs) = DEFAULT_PROJECTS := by
  have hne : docs.isEmpty = false := by
    cases docs with
    | nil => simp at h
    | cons d rest => rfl
  simp [list_projects, hne, mapDocs_error_of_mem h, fallback]

/-- C9 amended witness: a singleton non-mapping sequence yields the
Fallback set. -/
theorem nonmapping_record_full_fallback_witness :
    list_projects (.success [Doc.nonMapping]) = DEFAULT_PROJECTS :=
  nonmapping_record_full_fallback [Doc.nonMapping] (by simp)

/-- C10: list_projects is total over all modelled gateway outcomes and
never returns an empty sequence: the result is the four-element Fallback
set, or holds exactly one mapped Project per stored document. -/
theorem listProjects_never_empty (o : FetchOutcome) :
    1 ≤ (list_projects o).length ∧
    (list_projects o = DEFAULT_PROJECTS ∨
      ∃ docs, o = .success docs ∧ (list_projects o).length = docs.length) := by
  cases o with
  | failure => exact ⟨by decide, Or.inl rfl⟩
  | success docs =>
    by_cases he : docs.isEmpty
    · constructor
      · simp [list_projects, he, fallback, DEFAULT_PROJECTS]
      · left
        simp [list_projects, he, fallback]
    · cases hm : mapDocs docs with
      | error e =>
        constructor
        · simp [list_projects, he, hm, fallback, DEFAULT_PROJECTS]
        · left
          simp [list_projects, he, hm, fallback]
      | ok items =>
        have hlen : items.length = docs.length := mapDocs_ok_length hm
        have hpos : 1 ≤ docs.length := by
          cases docs with
          | nil => simp at he
          | cons d rest => simp
        constructor
        · simpa [list_projects, he, hm, hlen] using hpos
        · right
          exact ⟨docs, rfl, by simp [list_projects, he, hm, hlen]⟩

end Backend
